import Mathlib

/-!
Shallow embedding of `src/main.rs` of the `statistical_computing` repository:
a two-sample proportion z-test (`ab_conversion_test`) plus the `match` in
`main` that turns its result into a printed message.

Modelling conventions:
* The f64 inputs `p1`, `p2` and all exact rational intermediates (`p`,
  `numerator`, the radicand of `denominator`) are embedded as `ℚ`; the sample
  sizes `n1`, `n2` (Rust `usize`) as `ℕ`.
* The square root and every value derived from it (`denominator`, `z`, `moe`,
  `lo`, `hi`) live in `ℝ` via `Real.sqrt`.
* Rust f64 division by zero yields `±∞`/`NaN`, which `ℝ` cannot represent, so
  the decision `z > 1.96` of line 39 of `main.rs` is embedded as the predicate
  `significant`, which spells out the three IEEE cases of that comparison
  (positive, zero, and negative radicand).  The lemma `significant_iff_crit_lt_z`
  certifies that on a positive radicand it coincides with the real-valued
  statistic `z`.
-/

namespace ABTest

/-- Result type of `ab_conversion_test`: `Result<(f64, f64, f64), &'static str>`.
The `ok` payload is the winner's sample size as f64 together with the two
interval bounds. -/
inductive ABResult where
  | ok : ℝ → ℝ → ℝ → ABResult
  | err : String → ABResult

/-- Line 30 of `main.rs`:
`let p = (p1 * (n1 as f64) + p2 * (n2 as f64)) / ((n1 + n2) as f64);` -/
def p (p1 : ℚ) (n1 : ℕ) (p2 : ℚ) (n2 : ℕ) : ℚ :=
  (p1 * (n1 : ℚ) + p2 * (n2 : ℚ)) / ((n1 + n2 : ℕ) : ℚ)

/-- Line 31 of `main.rs`: `let numerator = (p1 - p2).abs();` -/
def numerator (p1 p2 : ℚ) : ℚ := |p1 - p2|

/-- The radicand of line 32 of `main.rs`:
`p * (1.0 - p) * ((1.0 / (n1 as f64)) + (1.0 / (n2 as f64)))`.
It is an exact rational; only the square root leaves `ℚ`. -/
def varTerm (p1 : ℚ) (n1 : ℕ) (p2 : ℚ) (n2 : ℕ) : ℚ :=
  p p1 n1 p2 n2 * (1 - p p1 n1 p2 n2) * ((1 / (n1 : ℚ)) + (1 / (n2 : ℚ)))

/-- Line 32 of `main.rs`: `let denominator = (…).sqrt();`
(`Real.sqrt` of a negative radicand is `0` here, where f64 gives `NaN`;
`significant` below accounts for that difference, and no claim below reads
`denominator` off a negative radicand.) -/
noncomputable def denominator (p1 : ℚ) (n1 : ℕ) (p2 : ℚ) (n2 : ℕ) : ℝ :=
  Real.sqrt (varTerm p1 n1 p2 n2 : ℝ)

/-- Line 33 of `main.rs`: `let z = numerator / denominator;`
(real division, which agrees with f64 division whenever `denominator ≠ 0`). -/
noncomputable def z (p1 : ℚ) (n1 : ℕ) (p2 : ℚ) (n2 : ℕ) : ℝ :=
  (numerator p1 p2 : ℝ) / denominator p1 n1 p2 n2

/-- Line 36 of `main.rs`: `let moe = 1.96 * denominator;` -/
noncomputable def moe (p1 : ℚ) (n1 : ℕ) (p2 : ℚ) (n2 : ℕ) : ℝ :=
  1.96 * denominator p1 n1 p2 n2

/-- Line 37 of `main.rs`: `let lo = numerator - moe;` -/
noncomputable def lo (p1 : ℚ) (n1 : ℕ) (p2 : ℚ) (n2 : ℕ) : ℝ :=
  (numerator p1 p2 : ℝ) - moe p1 n1 p2 n2

/-- Line 38 of `main.rs`: `let hi = numerator + moe;` -/
noncomputable def hi (p1 : ℚ) (n1 : ℕ) (p2 : ℚ) (n2 : ℕ) : ℝ :=
  (numerator p1 p2 : ℝ) + moe p1 n1 p2 n2

/-- The f64 comparison `z > 1.96` of line 39 of `main.rs`, written without a
square root so it stays in `ℚ`.  The IEEE-754 cases of
`numerator / sqrt(varTerm) > 1.96`:
* `varTerm > 0`: the comparison is `numerator > 1.96 * sqrt varTerm`, i.e.
  (squaring, as both sides are then nonnegative) `1.96² * varTerm < numerator²`;
* `varTerm = 0`: `denominator = 0`, so `z` is `+∞` (comparison true) when
  `numerator > 0` and `NaN` (comparison false) when `numerator = 0`;
* `varTerm < 0`: f64 `sqrt` gives `NaN`, so `z` is `NaN` and the comparison is
  false — neither disjunct holds.
`significant_iff_crit_lt_z` proves agreement with the real-valued `z` in the
first case. -/
def significant (p1 : ℚ) (n1 : ℕ) (p2 : ℚ) (n2 : ℕ) : Prop :=
  (0 < varTerm p1 n1 p2 n2 ∧
      (1.96 : ℚ) ^ 2 * varTerm p1 n1 p2 n2 < numerator p1 p2 ^ 2) ∨
  (varTerm p1 n1 p2 n2 = 0 ∧ 0 < numerator p1 p2)

instance significantDecidable (p1 : ℚ) (n1 : ℕ) (p2 : ℚ) (n2 : ℕ) :
    Decidable (significant p1 n1 p2 n2) := by
  unfold significant
  infer_instance

/-- Lines 26–45 of `main.rs`: the whole of `ab_conversion_test`. -/
noncomputable def ab_conversion_test (p1 : ℚ) (n1 : ℕ) (p2 : ℚ) (n2 : ℕ) : ABResult :=
  if n1 < 5 ∨ n2 < 5 then
    ABResult.err "Insufficient sample size."
  else if significant p1 n1 p2 n2 then
    ABResult.ok (if p1 > p2 then (n1 : ℝ) else (n2 : ℝ)) (lo p1 n1 p2 n2) (hi p1 n1 p2 n2)
  else
    ABResult.err "No statistically significant difference was found."

/-- Which arm of the `match` in `main` (lines 55–59 of `main.rs`) fires. -/
inductive MainBranch where
  | versionA
  | versionB
  | silent
  | printed : String → MainBranch

/-- The `match` in `main`, lines 55–59 of `main.rs`: the first guard
`winner as usize == n1` is tried before `winner as usize == n2`; an `Ok`
matching neither prints nothing, and an `Err` prints its message. -/
noncomputable def mainMatch (r : ABResult) (n1 n2 : ℕ) : MainBranch :=
  match r with
  | ABResult.ok w _ _ =>
      if w = (n1 : ℝ) then MainBranch.versionA
      else if w = (n2 : ℝ) then MainBranch.versionB
      else MainBranch.silent
  | ABResult.err e => MainBranch.printed e

/-! ### Basic lemmas about the embedded definitions -/

theorem numerator_nonneg (p1 p2 : ℚ) : 0 ≤ numerator p1 p2 :=
  abs_nonneg _

/-- A significant outcome forces a strictly positive absolute rate difference. -/
theorem significant_num_pos {p1 : ℚ} {n1 : ℕ} {p2 : ℚ} {n2 : ℕ}
    (hs : significant p1 n1 p2 n2) : 0 < numerator p1 p2 := by
  rcases hs with ⟨hv, hlt⟩ | ⟨-, hnum⟩
  · have hn : 0 ≤ numerator p1 p2 := numerator_nonneg p1 p2
    nlinarith
  · exact hnum

/-- A significant outcome forces a nonnegative radicand. -/
theorem significant_varTerm_nonneg {p1 : ℚ} {n1 : ℕ} {p2 : ℚ} {n2 : ℕ}
    (hs : significant p1 n1 p2 n2) : 0 ≤ varTerm p1 n1 p2 n2 := by
  rcases hs with ⟨hv, -⟩ | ⟨hv, -⟩
  · exact hv.le
  · exact hv.ge

/-- A significant outcome forces distinct raw rates. -/
theorem significant_rate_ne {p1 : ℚ} {n1 : ℕ} {p2 : ℚ} {n2 : ℕ}
    (hs : significant p1 n1 p2 n2) : p1 ≠ p2 := by
  intro he
  have h0 : numerator p1 p2 = 0 := by
    rw [numerator, he, sub_self, abs_zero]
  have := significant_num_pos hs
  linarith

theorem not_significant_of_rate_eq {p1 : ℚ} {n1 : ℕ} {p2 : ℚ} {n2 : ℕ}
    (he : p1 = p2) : ¬ significant p1 n1 p2 n2 := by
  intro hs
  exact significant_rate_ne hs he

/-- On a positive radicand, `significant` is exactly the source's comparison
`z > 1.96` on the real-valued statistic. -/
theorem significant_iff_crit_lt_z {p1 : ℚ} {n1 : ℕ} {p2 : ℚ} {n2 : ℕ}
    (hv : 0 < varTerm p1 n1 p2 n2) :
    significant p1 n1 p2 n2 ↔ (1.96 : ℝ) < z p1 n1 p2 n2 := by
  have hvR : (0 : ℝ) < (varTerm p1 n1 p2 n2 : ℝ) := by exact_mod_cast hv
  have hden : (0 : ℝ) < denominator p1 n1 p2 n2 := Real.sqrt_pos.2 hvR
  have hnumR : (0 : ℝ) ≤ (numerator p1 p2 : ℝ) := by
    exact_mod_cast numerator_nonneg p1 p2
  rw [z, lt_div_iff₀ hden]
  have hsq2 : (1.96 * denominator p1 n1 p2 n2) ^ 2
      = (1.96 : ℝ) ^ 2 * (varTerm p1 n1 p2 n2 : ℝ) := by
    rw [mul_pow, denominator, Real.sq_sqrt hvR.le]
  constructor
  · rintro (⟨-, hlt⟩ | ⟨hv0, -⟩)
    · have hltR : (1.96 : ℝ) ^ 2 * (varTerm p1 n1 p2 n2 : ℝ)
          < (numerator p1 p2 : ℝ) ^ 2 := by
        have h2 := (Rat.cast_lt (K := ℝ)).2 hlt
        push_cast at h2
        exact h2
      exact lt_of_pow_lt_pow_left₀ 2 hnumR (by rw [hsq2]; exact hltR)
    · exact absurd hv0 hv.ne'
  · intro hlt
    left
    refine ⟨hv, ?_⟩
    have hm : (0 : ℝ) ≤ 1.96 * denominator p1 n1 p2 n2 := by positivity
    have hsq : (1.96 * denominator p1 n1 p2 n2) ^ 2
        < (numerator p1 p2 : ℝ) ^ 2 :=
      pow_lt_pow_left₀ hlt hm two_ne_zero
    rw [hsq2] at hsq
    have : (((1.96 : ℚ) ^ 2 * varTerm p1 n1 p2 n2 : ℚ) : ℝ)
        < ((numerator p1 p2 ^ 2 : ℚ) : ℝ) := by push_cast; exact hsq
    exact_mod_cast this

/-- The square of the statistic, with the square root eliminated. -/
theorem z_sq {p1 : ℚ} {n1 : ℕ} {p2 : ℚ} {n2 : ℕ}
    (hv : 0 ≤ varTerm p1 n1 p2 n2) :
    z p1 n1 p2 n2 ^ 2
      = (numerator p1 p2 : ℝ) ^ 2 / (varTerm p1 n1 p2 n2 : ℝ) := by
  rw [z, div_pow, denominator, Real.sq_sqrt (by exact_mod_cast hv)]

theorem z_nonneg (p1 : ℚ) (n1 : ℕ) (p2 : ℚ) (n2 : ℕ) : 0 ≤ z p1 n1 p2 n2 := by
  apply div_nonneg
  · exact_mod_cast numerator_nonneg p1 p2
  · exact Real.sqrt_nonneg _

/-- Characterisation of an `ok` outcome of `ab_conversion_test`. -/
theorem ab_ok_iff {p1 : ℚ} {n1 : ℕ} {p2 : ℚ} {n2 : ℕ} {w l h : ℝ} :
    ab_conversion_test p1 n1 p2 n2 = ABResult.ok w l h ↔
      5 ≤ n1 ∧ 5 ≤ n2 ∧ significant p1 n1 p2 n2 ∧
      w = (if p1 > p2 then (n1 : ℝ) else (n2 : ℝ)) ∧
      l = lo p1 n1 p2 n2 ∧ h = hi p1 n1 p2 n2 := by
  unfold ab_conversion_test
  by_cases hsize : n1 < 5 ∨ n2 < 5
  · rw [if_pos hsize]
    constructor
    · intro hc
      exact ABResult.noConfusion hc
    · rintro ⟨h1, h2, -⟩
      omega
  · rw [if_neg hsize]
    by_cases hsig : significant p1 n1 p2 n2
    · rw [if_pos hsig]
      constructor
      · intro hc
        injection hc with hw hl hh
        exact ⟨by omega, by omega, hsig, hw.symm, hl.symm, hh.symm⟩
      · rintro ⟨-, -, -, rfl, rfl, rfl⟩
        rfl
    · rw [if_neg hsig]
      constructor
      · intro hc
        exact ABResult.noConfusion hc
      · rintro ⟨-, -, hs, -⟩
        exact absurd hs hsig

/-! ### Symmetry of the statistical quantities in the two samples -/

theorem p_comm (p1 : ℚ) (n1 : ℕ) (p2 : ℚ) (n2 : ℕ) :
    p p2 n2 p1 n1 = p p1 n1 p2 n2 := by
  unfold p
  rw [Nat.add_comm n2 n1]
  ring_nf

theorem numerator_comm (p1 p2 : ℚ) : numerator p2 p1 = numerator p1 p2 :=
  abs_sub_comm p2 p1

theorem varTerm_comm (p1 : ℚ) (n1 : ℕ) (p2 : ℚ) (n2 : ℕ) :
    varTerm p2 n2 p1 n1 = varTerm p1 n1 p2 n2 := by
  unfold varTerm
  rw [p_comm]
  ring

theorem significant_comm (p1 : ℚ) (n1 : ℕ) (p2 : ℚ) (n2 : ℕ) :
    significant p2 n2 p1 n1 ↔ significant p1 n1 p2 n2 := by
  unfold significant
  rw [varTerm_comm, numerator_comm]

theorem lo_comm (p1 : ℚ) (n1 : ℕ) (p2 : ℚ) (n2 : ℕ) :
    lo p2 n2 p1 n1 = lo p1 n1 p2 n2 := by
  unfold lo moe denominator
  rw [varTerm_comm, numerator_comm]

theorem hi_comm (p1 : ℚ) (n1 : ℕ) (p2 : ℚ) (n2 : ℕ) :
    hi p2 n2 p1 n1 = hi p1 n1 p2 n2 := by
  unfold hi moe denominator
  rw [varTerm_comm, numerator_comm]

/-- The winner expression is symmetric in the two samples once the rates are
known to differ. -/
theorem winner_comm {p1 p2 : ℚ} (n1 n2 : ℕ) (hne : p1 ≠ p2) :
    (if p2 > p1 then (n2 : ℝ) else (n1 : ℝ))
      = (if p1 > p2 then (n1 : ℝ) else (n2 : ℝ)) := by
  rcases lt_or_gt_of_ne hne with hlt | hgt
  · rw [if_pos hlt, if_neg (asymm hlt)]
  · rw [if_neg (asymm hgt), if_pos hgt]

/-! ### Concrete evaluations used by the witnesses and counterexamples -/

theorem varTerm_s1 : varTerm (1/5) 1000 (7/10) 800 = 247/450000 := by
  unfold varTerm p
  norm_num

theorem numerator_s1 : numerator (1/5) (7/10) = 1/2 := by
  unfold numerator
  rw [show (1/5 : ℚ) - 7/10 = -(1/2) by norm_num, abs_neg,
    abs_of_pos (by norm_num : (0:ℚ) < 1/2)]

theorem significant_s1 : significant (1/5) 1000 (7/10) 800 := by
  unfold significant
  left
  rw [varTerm_s1, numerator_s1]
  constructor <;> norm_num

theorem ab_err_of_not_significant {p1 : ℚ} {n1 : ℕ} {p2 : ℚ} {n2 : ℕ}
    (h1 : 5 ≤ n1) (h2 : 5 ≤ n2) (hns : ¬ significant p1 n1 p2 n2) :
    ab_conversion_test p1 n1 p2 n2
      = ABResult.err "No statistically significant difference was found." := by
  unfold ab_conversion_test
  rw [if_neg (by omega), if_neg hns]

/-- `ab_conversion_test` on scenario 1 of the spec (rates 0.20 and 0.70,
sizes 1000 and 800): winner is B's sample size, 800. -/
theorem ab_s1_eq :
    ab_conversion_test (1/5) 1000 (7/10) 800
      = ABResult.ok (800 : ℝ) (lo (1/5) 1000 (7/10) 800) (hi (1/5) 1000 (7/10) 800) := by
  rw [ab_ok_iff]
  refine ⟨by norm_num, by norm_num, significant_s1, ?_, rfl, rfl⟩
  rw [if_neg (by norm_num : ¬ ((1:ℚ)/5 > 7/10))]
  norm_num

/-! ### The claims -/

/-- C1: with both sample sizes at least 5, a `Significant` outcome declares as
winner the variant whose raw rate is strictly higher (returning that variant's
sample size), and consequently the two rates are distinct. -/
theorem ab_significant_winner_higher_rate (p1 : ℚ) (n1 : ℕ) (p2 : ℚ) (n2 : ℕ)
    (w l h : ℝ) (h1 : 5 ≤ n1) (h2 : 5 ≤ n2)
    (hok : ab_conversion_test p1 n1 p2 n2 = ABResult.ok w l h) :
    ((p2 < p1 ∧ w = (n1 : ℝ)) ∨ (p1 < p2 ∧ w = (n2 : ℝ))) ∧ p1 ≠ p2 := by
  obtain ⟨-, -, hsig, hw, -, -⟩ := ab_ok_iff.1 hok
  have hne := significant_rate_ne hsig
  refine ⟨?_, hne⟩
  rcases lt_or_gt_of_ne hne with hlt | hgt
  · right
    exact ⟨hlt, by rwa [if_neg (asymm hlt)] at hw⟩
  · left
    exact ⟨hgt, by rwa [if_pos hgt] at hw⟩

/-- Witness for C1 at scenario 1: the winner is B (rate 0.70 against 0.20),
whose sample size 800 is returned. -/
theorem ab_significant_winner_higher_rate_app :
    (5:ℕ) ≤ 1000 ∧ (5:ℕ) ≤ 800 ∧
    ((((7:ℚ)/10 < 1/5 ∧ (800 : ℝ) = ((1000:ℕ) : ℝ)) ∨
      ((1:ℚ)/5 < 7/10 ∧ (800 : ℝ) = ((800:ℕ) : ℝ))) ∧ (1/5 : ℚ) ≠ 7/10) :=
  ⟨by norm_num, by norm_num,
    ab_significant_winner_higher_rate (1/5) 1000 (7/10) 800 800
      (lo (1/5) 1000 (7/10) 800) (hi (1/5) 1000 (7/10) 800)
      (by norm_num) (by norm_num) ab_s1_eq⟩

/-- C2: whenever either sample size is below the minimum of 5, the outcome is
the insufficient-sample error, whatever the rates are; the size check is the
first thing the function does and returns before any statistical arithmetic. -/
theorem ab_insufficient_of_small_size (p1 : ℚ) (n1 : ℕ) (p2 : ℚ) (n2 : ℕ)
    (h : n1 < 5 ∨ n2 < 5) :
    ab_conversion_test p1 n1 p2 n2 = ABResult.err "Insufficient sample size." := by
  unfold ab_conversion_test
  rw [if_pos h]

/-- Witness for C2 at `sizeA = 3` (scenario 3 of the spec). -/
theorem ab_insufficient_of_small_size_app :
    ((3:ℕ) < 5 ∨ (1000:ℕ) < 5) ∧
    ab_conversion_test (9/10) 3 0 1000 = ABResult.err "Insufficient sample size." :=
  ⟨Or.inl (by norm_num),
    ab_insufficient_of_small_size (9/10) 3 0 1000 (Or.inl (by norm_num))⟩

/-- C3: with both sample sizes at least 5 and equal rates, the outcome is the
no-significant-difference error: the absolute difference is 0, so the f64
statistic is `0/denominator` (0, or NaN when the denominator is 0) and never
exceeds 1.96. -/
theorem ab_equal_rates_not_significant (p1 : ℚ) (n1 : ℕ) (p2 : ℚ) (n2 : ℕ)
    (h1 : 5 ≤ n1) (h2 : 5 ≤ n2) (he : p1 = p2) :
    ab_conversion_test p1 n1 p2 n2
      = ABResult.err "No statistically significant difference was found." :=
  ab_err_of_not_significant h1 h2 (not_significant_of_rate_eq he)

/-- Witness for C3 at scenario 4 of the spec (`rate 0.5, size 100` twice). -/
theorem ab_equal_rates_not_significant_app :
    (5:ℕ) ≤ 100 ∧ (1/2 : ℚ) = 1/2 ∧
    ab_conversion_test (1/2) 100 (1/2) 100
      = ABResult.err "No statistically significant difference was found." :=
  ⟨by norm_num, rfl,
    ab_equal_rates_not_significant (1/2) 100 (1/2) 100
      (by norm_num) (by norm_num) rfl⟩

/-- C5: in every `Significant` outcome the returned interval satisfies
`lo ≤ hi`, because `lo = diff - moe` and `hi = diff + moe` with
`moe = 1.96 * denominator ≥ 0`. -/
theorem ab_ok_interval_le (p1 : ℚ) (n1 : ℕ) (p2 : ℚ) (n2 : ℕ) (w l h : ℝ)
    (hok : ab_conversion_test p1 n1 p2 n2 = ABResult.ok w l h) : l ≤ h := by
  obtain ⟨-, -, -, -, hl, hh⟩ := ab_ok_iff.1 hok
  subst hl
  subst hh
  have hm : 0 ≤ moe p1 n1 p2 n2 := by
    unfold moe denominator
    positivity
  unfold lo hi
  linarith

/-- Witness for C5 at scenario 1. -/
theorem ab_ok_interval_le_app :
    ab_conversion_test (1/5) 1000 (7/10) 800
      = ABResult.ok (800 : ℝ) (lo (1/5) 1000 (7/10) 800) (hi (1/5) 1000 (7/10) 800) ∧
    lo (1/5) 1000 (7/10) 800 ≤ hi (1/5) 1000 (7/10) 800 :=
  ⟨ab_s1_eq,
    ab_ok_interval_le (1/5) 1000 (7/10) 800 800
      (lo (1/5) 1000 (7/10) 800) (hi (1/5) 1000 (7/10) 800) ab_s1_eq⟩

/-- C9: on every input — sizes and rates unrestricted, rates outside [0,1]
included — `ab_conversion_test` returns exactly one of the three outcomes of
its single result type: a `Significant` tuple, the insufficient-sample error,
or the no-significant-difference error.  Totality and purity are this
function's very type in the embedding: no extra fault channel exists. -/
theorem ab_total_three_outcomes (p1 : ℚ) (n1 : ℕ) (p2 : ℚ) (n2 : ℕ) :
    (∃ w l h, ab_conversion_test p1 n1 p2 n2 = ABResult.ok w l h) ∨
    ab_conversion_test p1 n1 p2 n2 = ABResult.err "Insufficient sample size." ∨
    ab_conversion_test p1 n1 p2 n2
      = ABResult.err "No statistically significant difference was found." := by
  unfold ab_conversion_test
  by_cases hsize : n1 < 5 ∨ n2 < 5
  · rw [if_pos hsize]
    exact Or.inr (Or.inl rfl)
  · rw [if_neg hsize]
    by_cases hsig : significant p1 n1 p2 n2
    · rw [if_pos hsig]
      exact Or.inl ⟨_, _, _, rfl⟩
    · rw [if_neg hsig]
      exact Or.inr (Or.inr rfl)

/-- C6: swapping the two samples preserves whether the outcome is
`Significant`, and a `Significant` outcome carries the same winner and the same
interval bounds either way (`p`, `numerator` and the radicand are symmetric in
the two samples). -/
theorem ab_symm (p1 : ℚ) (n1 : ℕ) (p2 : ℚ) (n2 : ℕ) (w l h : ℝ)
    (h1 : 5 ≤ n1) (h2 : 5 ≤ n2) :
    ab_conversion_test p1 n1 p2 n2 = ABResult.ok w l h ↔
      ab_conversion_test p2 n2 p1 n1 = ABResult.ok w l h := by
  rw [ab_ok_iff, ab_ok_iff]
  constructor
  · rintro ⟨-, -, hsig, hw, hl, hh⟩
    refine ⟨h2, h1, (significant_comm p1 n1 p2 n2).2 hsig, ?_, ?_, ?_⟩
    · rw [hw]
      exact (winner_comm n1 n2 (significant_rate_ne hsig)).symm
    · rw [lo_comm]
      exact hl
    · rw [hi_comm]
      exact hh
  · rintro ⟨-, -, hsig, hw, hl, hh⟩
    have hsig' := (significant_comm p1 n1 p2 n2).1 hsig
    refine ⟨h1, h2, hsig', ?_, ?_, ?_⟩
    · rw [hw]
      exact winner_comm n1 n2 (significant_rate_ne hsig')
    · rw [← lo_comm]
      exact hl
    · rw [← hi_comm]
      exact hh

/-- Witness for C6 at scenario 1 and its swap. -/
theorem ab_symm_app :
    (5:ℕ) ≤ 1000 ∧ (5:ℕ) ≤ 800 ∧
    (ab_conversion_test (1/5) 1000 (7/10) 800
        = ABResult.ok (800 : ℝ) (lo (1/5) 1000 (7/10) 800) (hi (1/5) 1000 (7/10) 800) ↔
      ab_conversion_test (7/10) 800 (1/5) 1000
        = ABResult.ok (800 : ℝ) (lo (1/5) 1000 (7/10) 800) (hi (1/5) 1000 (7/10) 800)) :=
  ⟨by norm_num, by norm_num,
    ab_symm (1/5) 1000 (7/10) 800 800
      (lo (1/5) 1000 (7/10) 800) (hi (1/5) 1000 (7/10) 800)
      (by norm_num) (by norm_num)⟩

theorem lo_s1_pos : 0 < lo (1/5) 1000 (7/10) 800 := by
  unfold lo moe denominator
  rw [varTerm_s1, numerator_s1]
  push_cast
  have hs : Real.sqrt ((247:ℝ)/450000) < 25/98 := by
    rw [Real.sqrt_lt' (by norm_num : (0:ℝ) < 25/98)]
    norm_num
  nlinarith [Real.sqrt_nonneg ((247:ℝ)/450000)]

theorem lo_s1_lt_hi_s1 : lo (1/5) 1000 (7/10) 800 < hi (1/5) 1000 (7/10) 800 := by
  unfold lo hi moe denominator
  rw [varTerm_s1]
  have hs : (0:ℝ) < Real.sqrt ((247/450000 : ℚ) : ℝ) :=
    Real.sqrt_pos.2 (by norm_num)
  linarith

/-- C8: on `rateA = 0.20, sizeA = 1000, rateB = 0.70, sizeB = 800` the outcome
is `Significant` with winner B (its sample size 800 is returned), and the two
interval bounds are strictly positive with `lo < hi`. -/
theorem ab_scenario1 :
    ab_conversion_test (1/5) 1000 (7/10) 800
      = ABResult.ok (800 : ℝ) (lo (1/5) 1000 (7/10) 800) (hi (1/5) 1000 (7/10) 800) ∧
    0 < lo (1/5) 1000 (7/10) 800 ∧
    lo (1/5) 1000 (7/10) 800 < hi (1/5) 1000 (7/10) 800 :=
  ⟨ab_s1_eq, lo_s1_pos, lo_s1_lt_hi_s1⟩

theorem varTerm_cex0 : varTerm 2 10 (-2) 10 = 0 := by
  unfold varTerm p
  norm_num

theorem numerator_cex0 : numerator 2 (-2) = 4 := by
  unfold numerator
  rw [show (2:ℚ) - (-2) = 4 by norm_num]
  exact abs_of_pos (by norm_num)

theorem significant_cex0 : significant 2 10 (-2) 10 :=
  Or.inr ⟨varTerm_cex0, by rw [numerator_cex0]; norm_num⟩

theorem denominator_cex0 : denominator 2 10 (-2) 10 = 0 := by
  unfold denominator
  rw [varTerm_cex0, Rat.cast_zero, Real.sqrt_zero]

theorem lo_cex0 : lo 2 10 (-2) 10 = 4 := by
  unfold lo moe
  rw [numerator_cex0, denominator_cex0]
  norm_num

theorem hi_cex0 : hi 2 10 (-2) 10 = 4 := by
  unfold hi moe
  rw [numerator_cex0, denominator_cex0]
  norm_num

theorem ab_cex0_eq : ab_conversion_test 2 10 (-2) 10 = ABResult.ok (10:ℝ) 4 4 := by
  rw [ab_ok_iff]
  refine ⟨by norm_num, by norm_num, significant_cex0, ?_, lo_cex0.symm, hi_cex0.symm⟩
  rw [if_pos (by norm_num : (2:ℚ) > -2)]
  norm_num

/-- C4 counterexample: at rates 2 and −2 (outside [0,1]) with sizes 10 and 10,
the pooled proportion is 0, so the standard-error denominator computes to 0 —
yet the outcome is `Significant` (`.ok 10 4 4`), not the no-difference error:
in f64 the division `4.0 / 0.0` yields `+∞`, which exceeds 1.96. -/
theorem ab_zero_denominator_significant_cex :
    denominator 2 10 (-2) 10 = 0 ∧
    ab_conversion_test 2 10 (-2) 10 = ABResult.ok (10:ℝ) 4 4 ∧
    ab_conversion_test 2 10 (-2) 10
      ≠ ABResult.err "No statistically significant difference was found." := by
  refine ⟨denominator_cex0, ab_cex0_eq, ?_⟩
  rw [ab_cex0_eq]
  intro hc
  exact ABResult.noConfusion hc

/-- C4 (amended): for rates within [0,1] and both sample sizes at least 5, a
standard-error denominator of 0 (pooled proportion 0 or 1) forces both rates to
be 0, or both to be 1, so the difference is 0 and the outcome is the
no-significant-difference error — no NaN or infinite statistic surfaces as
`Significant`. -/
theorem ab_zero_denominator_not_significant (p1 : ℚ) (n1 : ℕ) (p2 : ℚ) (n2 : ℕ)
    (hp10 : 0 ≤ p1) (hp11 : p1 ≤ 1) (hp20 : 0 ≤ p2) (hp21 : p2 ≤ 1)
    (h1 : 5 ≤ n1) (h2 : 5 ≤ n2)
    (hden : denominator p1 n1 p2 n2 = 0) :
    ab_conversion_test p1 n1 p2 n2
      = ABResult.err "No statistically significant difference was found." := by
  have hn1 : (0:ℚ) < (n1:ℚ) := by exact_mod_cast (by omega : 0 < n1)
  have hn2 : (0:ℚ) < (n2:ℚ) := by exact_mod_cast (by omega : 0 < n2)
  have hsum : (0:ℚ) < ((n1 + n2 : ℕ) : ℚ) := by exact_mod_cast (by omega : 0 < n1 + n2)
  have hP0 : 0 ≤ p p1 n1 p2 n2 := by
    unfold p
    apply div_nonneg _ hsum.le
    have ha := mul_nonneg hp10 hn1.le
    have hb := mul_nonneg hp20 hn2.le
    linarith
  have hP1 : p p1 n1 p2 n2 ≤ 1 := by
    unfold p
    rw [div_le_one hsum]
    push_cast
    have ha := mul_le_of_le_one_left hn1.le hp11
    have hb := mul_le_of_le_one_left hn2.le hp21
    linarith
  have hvge : 0 ≤ varTerm p1 n1 p2 n2 := by
    unfold varTerm
    have h1P : 0 ≤ 1 - p p1 n1 p2 n2 := by linarith
    have hinv : 0 ≤ 1/(n1:ℚ) + 1/(n2:ℚ) := by positivity
    exact mul_nonneg (mul_nonneg hP0 h1P) hinv
  have hvle : varTerm p1 n1 p2 n2 ≤ 0 := by
    unfold denominator at hden
    exact_mod_cast Real.sqrt_eq_zero'.1 hden
  have hv0 : varTerm p1 n1 p2 n2 = 0 := le_antisymm hvle hvge
  have hinv : (0:ℚ) < 1/(n1:ℚ) + 1/(n2:ℚ) := by positivity
  have hPP : p p1 n1 p2 n2 * (1 - p p1 n1 p2 n2) = 0 := by
    unfold varTerm at hv0
    rcases mul_eq_zero.1 hv0 with hx | hx
    · exact hx
    · exact absurd hx (ne_of_gt hinv)
  have he : p1 = p2 := by
    rcases mul_eq_zero.1 hPP with hP | hP
    · -- pooled proportion is 0: all the mass terms vanish.
      have hnum0 : p1 * n1 + p2 * n2 = 0 := by
        unfold p at hP
        rcases div_eq_zero_iff.1 hP with hx | hx
        · exact hx
        · exact absurd hx (ne_of_gt hsum)
      have hq1 : p1 = 0 := by
        by_contra hne
        have hpos : 0 < p1 := lt_of_le_of_ne hp10 (Ne.symm hne)
        have hx := mul_pos hpos hn1
        have hy := mul_nonneg hp20 hn2.le
        linarith
      have hq2 : p2 = 0 := by
        by_contra hne
        have hpos : 0 < p2 := lt_of_le_of_ne hp20 (Ne.symm hne)
        have hx := mul_pos hpos hn2
        have hy := mul_nonneg hp10 hn1.le
        linarith
      rw [hq1, hq2]
    · -- pooled proportion is 1: all the complement terms vanish.
      have hPeq : p p1 n1 p2 n2 = 1 := by linarith
      have hnum1 : p1 * n1 + p2 * n2 = (n1:ℚ) + n2 := by
        unfold p at hPeq
        have := (div_eq_one_iff_eq (ne_of_gt hsum)).1 hPeq
        push_cast at this
        linarith
      have hq1 : p1 = 1 := by
        by_contra hne
        have hlt : p1 < 1 := lt_of_le_of_ne hp11 hne
        have hx : 0 < (1 - p1) * n1 := mul_pos (by linarith) hn1
        have hy : 0 ≤ (1 - p2) * n2 := mul_nonneg (by linarith) hn2.le
        nlinarith
      have hq2 : p2 = 1 := by
        by_contra hne
        have hlt : p2 < 1 := lt_of_le_of_ne hp21 hne
        have hx : 0 < (1 - p2) * n2 := mul_pos (by linarith) hn2
        have hy : 0 ≤ (1 - p1) * n1 := mul_nonneg (by linarith) hn1.le
        nlinarith
      rw [hq1, hq2]
  exact ab_err_of_not_significant h1 h2 (not_significant_of_rate_eq he)

theorem denominator_w0 : denominator 0 10 0 10 = 0 := by
  unfold denominator varTerm p
  norm_num

/-- Witness for the amended C4 at rates 0, 0 with sizes 10, 10. -/
theorem ab_zero_denominator_not_significant_app :
    (0:ℚ) ≤ 0 ∧ (0:ℚ) ≤ 1 ∧ (5:ℕ) ≤ 10 ∧ denominator 0 10 0 10 = 0 ∧
    ab_conversion_test 0 10 0 10
      = ABResult.err "No statistically significant difference was found." :=
  ⟨le_refl 0, by norm_num, by norm_num, denominator_w0,
    ab_zero_denominator_not_significant 0 10 0 10
      le_rfl (by norm_num) le_rfl (by norm_num) (by norm_num) (by norm_num)
      denominator_w0⟩

theorem varTerm_m1 : varTerm 0 1000 (1/10) 1000 = 19/200000 := by
  unfold varTerm p
  norm_num

theorem numerator_m1 : numerator 0 (1/10) = 1/10 := by
  unfold numerator
  rw [show (0:ℚ) - 1/10 = -(1/10) by norm_num, abs_neg]
  exact abs_of_pos (by norm_num)

theorem varTerm_m2 : varTerm (2/5) 1000 (3/5) 1000 = 1/2000 := by
  unfold varTerm p
  norm_num

theorem numerator_m2 : numerator (2/5) (3/5) = 1/5 := by
  unfold numerator
  rw [show (2:ℚ)/5 - 3/5 = -(1/5) by norm_num, abs_neg]
  exact abs_of_pos (by norm_num)

theorem numerator_m3 : numerator (3/10) (7/10) = 2/5 := by
  unfold numerator
  rw [show (3:ℚ)/10 - 7/10 = -(2/5) by norm_num, abs_neg]
  exact abs_of_pos (by norm_num)

theorem z_m1_sq : z 0 1000 (1/10) 1000 ^ 2 = 2000/19 := by
  rw [z_sq (by rw [varTerm_m1]; norm_num), varTerm_m1, numerator_m1]
  push_cast
  norm_num

theorem z_m2_sq : z (2/5) 1000 (3/5) 1000 ^ 2 = 80 := by
  rw [z_sq (by rw [varTerm_m2]; norm_num), varTerm_m2, numerator_m2]
  push_cast
  norm_num

/-- C7 counterexample: with both sizes fixed at 1000, the pair
`(0, 0.1)` has absolute difference 0.1 and the pair `(0.4, 0.6)` has the
strictly larger absolute difference 0.2 — yet its z-statistic is strictly
smaller (√80 ≈ 8.94 against √(2000/19) ≈ 10.26), because the pooled
proportion moves with the rates. -/
theorem z_not_monotone_cex :
    numerator 0 (1/10) < numerator (2/5) (3/5) ∧
    z (2/5) 1000 (3/5) 1000 < z 0 1000 (1/10) 1000 := by
  constructor
  · rw [numerator_m1, numerator_m2]
    norm_num
  · apply lt_of_pow_lt_pow_left₀ 2 (z_nonneg 0 1000 (1/10) 1000)
    rw [z_m1_sq, z_m2_sq]
    norm_num

/-- C7 (amended): with both sizes at least 5 held fixed and the pooled
proportion also held fixed (so the standard error is unchanged and positive),
a strictly larger absolute rate difference gives a strictly larger
z-statistic. -/
theorem z_strictMono_same_pooled (pA : ℚ) (n1 : ℕ) (pB : ℚ) (n2 : ℕ)
    (pA' pB' : ℚ) (h1 : 5 ≤ n1) (h2 : 5 ≤ n2)
    (hp : p pA n1 pB n2 = p pA' n1 pB' n2)
    (hv : 0 < varTerm pA n1 pB n2)
    (hnum : numerator pA pB < numerator pA' pB') :
    z pA n1 pB n2 < z pA' n1 pB' n2 := by
  have hveq : varTerm pA' n1 pB' n2 = varTerm pA n1 pB n2 := by
    unfold varTerm
    rw [hp]
  unfold z denominator
  rw [hveq]
  have hs : (0:ℝ) < Real.sqrt (varTerm pA n1 pB n2 : ℝ) :=
    Real.sqrt_pos.2 (by exact_mod_cast hv)
  have hnumR : (numerator pA pB : ℝ) < (numerator pA' pB' : ℝ) := by
    exact_mod_cast hnum
  gcongr

/-- Witness for the amended C7: sizes 1000/1000, pooled proportion ½ in both
pairs, differences 0.2 < 0.4, and the z-statistics ordered accordingly. -/
theorem z_strictMono_same_pooled_app :
    p (2/5) 1000 (3/5) 1000 = p (3/10) 1000 (7/10) 1000 ∧
    0 < varTerm (2/5) 1000 (3/5) 1000 ∧
    numerator (2/5) (3/5) < numerator (3/10) (7/10) ∧
    z (2/5) 1000 (3/5) 1000 < z (3/10) 1000 (7/10) 1000 :=
  ⟨by unfold p; norm_num, by rw [varTerm_m2]; norm_num,
    by rw [numerator_m2, numerator_m3]; norm_num,
    z_strictMono_same_pooled (2/5) 1000 (3/5) 1000 (3/10) (7/10)
      (by norm_num) (by norm_num) (by unfold p; norm_num)
      (by rw [varTerm_m2]; norm_num)
      (by rw [numerator_m2, numerator_m3]; norm_num)⟩

theorem varTerm_m4 : varTerm (1/5) 1000 (7/10) 1000 = 99/200000 := by
  unfold varTerm p
  norm_num

theorem significant_m4 : significant (1/5) 1000 (7/10) 1000 := by
  unfold significant
  left
  rw [varTerm_m4, numerator_s1]
  constructor <;> norm_num

theorem ab_m4_eq :
    ab_conversion_test (1/5) 1000 (7/10) 1000
      = ABResult.ok (1000 : ℝ) (lo (1/5) 1000 (7/10) 1000) (hi (1/5) 1000 (7/10) 1000) := by
  rw [ab_ok_iff]
  refine ⟨by norm_num, by norm_num, significant_m4, ?_, rfl, rfl⟩
  rw [if_neg (by norm_num : ¬ ((1:ℚ)/5 > 7/10))]
  norm_num

theorem ab_m4_swap_eq :
    ab_conversion_test (7/10) 1000 (1/5) 1000
      = ABResult.ok (1000 : ℝ) (lo (1/5) 1000 (7/10) 1000) (hi (1/5) 1000 (7/10) 1000) := by
  rw [ab_ok_iff]
  refine ⟨by norm_num, by norm_num,
    (significant_comm (1/5) 1000 (7/10) 1000).mpr significant_m4, ?_,
    (lo_comm (1/5) 1000 (7/10) 1000).symm, (hi_comm (1/5) 1000 (7/10) 1000).symm⟩
  rw [if_pos (by norm_num : (7:ℚ)/10 > 1/5)]
  norm_num

/-- C10: in every `Significant` outcome the first component of the tuple is the
winning variant's sample size cast to f64 (`n1` when `rateA > rateB`, `n2`
otherwise), not an A/B tag.  Hence with `n1 = n2 = 1000` the call in which A
wins and the call in which B wins return identical results, and the caller's
match — which tests `winner as usize == n1` first — prints the Version-A
message even for the call in which B won. -/
theorem ab_winner_sample_size_ambiguous :
    (∀ (p1 : ℚ) (n1 : ℕ) (p2 : ℚ) (n2 : ℕ) (w l h : ℝ),
        ab_conversion_test p1 n1 p2 n2 = ABResult.ok w l h →
          w = (if p1 > p2 then (n1 : ℝ) else (n2 : ℝ))) ∧
    ab_conversion_test (7/10) 1000 (1/5) 1000
      = ab_conversion_test (1/5) 1000 (7/10) 1000 ∧
    mainMatch (ab_conversion_test (1/5) 1000 (7/10) 1000) 1000 1000
      = MainBranch.versionA := by
  refine ⟨?_, ?_, ?_⟩
  · intro p1 n1 p2 n2 w l h hok
    exact (ab_ok_iff.1 hok).2.2.2.1
  · rw [ab_m4_eq, ab_m4_swap_eq]
  · rw [ab_m4_eq]
    simp only [mainMatch]
    rw [if_pos (by norm_num : (1000:ℝ) = ((1000:ℕ):ℝ))]

end ABTest
